import Mathlib

/-!
Verification of the job-growth aggregation pipeline (backend of the
RealEstateAssignment repository).  The definitions below are a shallow
embedding of the pure computational core of `backend/main.py` and of the
refactored copies in `backend/services/`:

* growth-window computations (`get_growth`, `get_wage_growth`,
  `get_national_growth`, the inline census growth block),
* the downturn-resilience calculator,
* the ACS demographics row parser,
* the trend projector `project_census_data`,
* the comparative analyzer `compare_local_to_national`,
* the report composition inside the `get_job_growth` route, and
* the cache behaviour of the route.

Python floats are modelled as exact rationals; Python `round` (banker
rounding, half to even) is modelled by `roundHalfEven`.  The float value
`inf` produced by `float("inf")` is modelled by the sentinel constructor
`GrowthVal.inf`.  A Python `None` stored in a dict entry is modelled with
`Option`.  Exceptions raised by the code are modelled with `Except`.
-/

/-- Round a rational to the nearest integer, ties to even.  Models the
Python builtin `round` on values that are exactly representable; every
rounding site used in a concrete theorem below is tie-free and float-exact,
so the model agrees with CPython there. -/
def roundHalfEven (q : ℚ) : ℤ :=
  let f := ⌊q⌋
  let r := q - (f : ℚ)
  if r < 1/2 then f
  else if 1/2 < r then f + 1
  else if f % 2 = 0 then f else f + 1

/-- Models Python `round(q, 2)`. -/
def pyRound2 (q : ℚ) : ℚ := (roundHalfEven (q * 100) : ℚ) / 100

/-- Models Python `round(q, 1)`. -/
def pyRound1 (q : ℚ) : ℚ := (roundHalfEven (q * 10) : ℚ) / 10

/-- Models Python `round(q)` (to an int). -/
def pyRoundInt (q : ℚ) : ℤ := roundHalfEven q

/-- A growth figure: either the float sentinel `inf` produced by
`float("inf")`, or a finite rational. -/
inductive GrowthVal where
  | inf : GrowthVal
  | fin : ℚ → GrowthVal
deriving DecidableEq, Repr

/-- Python comparison `v > c` for a growth figure against a finite number. -/
def GrowthVal.gtQb : GrowthVal → ℚ → Bool
  | .inf, _ => true
  | .fin q, c => decide (c < q)

/-- Python `v - c` for a growth figure minus a finite number
(`inf - c` stays `inf`). -/
def GrowthVal.subQ : GrowthVal → ℚ → GrowthVal
  | .inf, _ => .inf
  | .fin a, b => .fin (a - b)

/-- Python `round(v, 2)` on a growth figure (`round(inf, 2)` returns `inf`). -/
def pyRound2GV : GrowthVal → GrowthVal
  | .inf => .inf
  | .fin q => .fin (pyRound2 q)

/-!  ## Growth-window computations

`get_growth` embeds the inner function of `fetch_bls_lau_data`
(main.py lines 126-132): the series is a most-recent-first list of integer
observation values, `latest_emp` is the head of the list.  -/

/-- Embeds `get_growth(data, steps)` from `fetch_bls_lau_data`:
if enough points exist, percent change of the head against the value
`steps` back, with `float("inf")` when the old value is 0 and the latest is
positive, and `0` when the old value is 0 and the latest is not positive. -/
def get_growth (data : List ℤ) (steps : ℕ) : Option GrowthVal :=
  if steps < data.length then
    let latest := data.headI
    let ago := data.getD steps 0
    if ago = 0 then some (if 0 < latest then .inf else .fin 0)
    else some (.fin (pyRound2 (((latest : ℚ) - (ago : ℚ)) / (ago : ℚ) * 100)))
  else none

/-- Embeds `get_wage_growth(years_back)` from `fetch_bls_qcew_sectors`
(main.py lines 260-265): returns the rounded percent change only when the
old wage is strictly positive, `None` otherwise (also when the history is
too short). -/
def get_wage_growth (wageData : List ℚ) (yearsBack : ℕ) : Option ℚ :=
  if yearsBack < wageData.length then
    let latest := wageData.headI
    let old := wageData.getD yearsBack 0
    if 0 < old then some (pyRound2 ((latest - old) / old * 100)) else none
  else none

/-- Embeds `get_national_growth(months_back)` from
`fetch_national_employment_data` (main.py lines 302-306); the raw values
are multiplied by 1000. -/
def get_national_growth (data : List ℤ) (monthsBack : ℕ) : Option ℚ :=
  if monthsBack < data.length then
    let latest := data.headI * 1000
    let old := data.getD monthsBack 0 * 1000
    if 0 < old then some (pyRound2 (((latest : ℚ) - (old : ℚ)) / (old : ℚ) * 100))
    else none
  else none

/-- One point of the granular (census) yearly trend list:
`{"year": ..., "value": employed, "unemp_rate": ..., "labor_force": ...}`,
with the `projected` key modelled as a Bool that is `false` when the key is
absent. -/
structure TrendPt where
  year : ℕ
  value : ℤ
  unemp_rate : ℚ
  labor_force : ℤ
  projected : Bool := false
deriving DecidableEq, Repr

instance : Inhabited TrendPt := ⟨⟨0, 0, 0, 0, false⟩⟩

/-- One conditional entry of the census growth dict (main.py lines
466-471): the key is added only when enough points exist, and its value is
`None` when the past value is not strictly positive. -/
def censusGrowthEntry (trends : List TrendPt) (k : ℕ) (label : String) :
    List (String × Option ℚ) :=
  if k < trends.length then
    let latest := trends.headI.value
    let past := (trends.getD k default).value
    [(label, if 0 < past then
        some (pyRound2 (((latest : ℚ) - (past : ℚ)) / (past : ℚ) * 100))
      else none)]
  else []

/-- Embeds the growth dict built in `fetch_census_data`
(main.py lines 464-471). -/
def census_growth (trends : List TrendPt) : List (String × Option ℚ) :=
  censusGrowthEntry trends 1 "1y" ++ censusGrowthEntry trends 2 "2y" ++
    censusGrowthEntry trends 5 "5y"

/-!  ## Downturn resilience calculator (main.py lines 335-365) -/

/-- Result dict of `calculate_downturn_resilience`; each field models the
presence of the corresponding key (`covid_impact` and
`great_recession_impact` carry their `job_loss_percent` value). -/
structure Resilience where
  covid_impact : Option ℚ := none
  great_recession_impact : Option ℚ := none
  resilience_score : Option ℚ := none
  resilience_rating : Option String := none
deriving DecidableEq, Repr

/-- Generic Python-dict upsert on an association list: an existing key is
overwritten in place, a new key is appended (CPython insertion order). -/
def upsertKV {κ α : Type} [DecidableEq κ] (l : List (κ × α)) (k : κ) (v : α) :
    List (κ × α) :=
  if l.any (fun p => p.1 = k) then l.map (fun p => if p.1 = k then (k, v) else p)
  else l ++ [(k, v)]

/-- Python dict built from a list of key-value pairs (later pairs win). -/
def dictOfPairs {κ α : Type} [DecidableEq κ] (ps : List (κ × α)) : List (κ × α) :=
  ps.foldl (fun acc p => upsertKV acc p.1 p.2) []

/-- Percentage loss `round((cur - base) / base * 100, 2)`;
a zero base raises ZeroDivisionError in Python, modelled as `.error`. -/
def lossPct (base cur : ℤ) : Except String ℚ :=
  if base = 0 then .error "ZeroDivisionError"
  else .ok (pyRound2 (((cur : ℚ) - (base : ℚ)) / (base : ℚ) * 100))

/-- Average of the absolute losses over the windows that are present
(`None` when no window is present). -/
def avgAbsLoss (covid gfc : Option ℚ) : Option ℚ :=
  match (covid.toList ++ gfc.toList).map (fun q => |q|) with
  | [] => none
  | ls => some (ls.sum / (ls.length : ℚ))

/-- Rating bucket of the (unrounded) resilience score
(main.py line 363). -/
def resilienceRatingOf (score : ℚ) : String :=
  if 70 < score then "High" else if 50 < score then "Moderate" else "Low"

/-- Embeds main.py lines 349-365: builds the resilience dict from the two
optional loss figures. -/
def mkResilience (covid gfc : Option ℚ) : Resilience :=
  match avgAbsLoss covid gfc with
  | none => { covid_impact := covid, great_recession_impact := gfc }
  | some avg =>
    let score := max 0 (min 100 (100 - avg * 5))
    { covid_impact := covid, great_recession_impact := gfc,
      resilience_score := some (pyRound1 score),
      resilience_rating := some (resilienceRatingOf score) }

/-- The covid window loss (main.py lines 351-353): present only when both
2019 and 2020 are in the observation dict. -/
def covidLossOf (d : List (ℕ × ℤ)) : Except String (Option ℚ) :=
  match d.lookup 2019, d.lookup 2020 with
  | some a, some b => (lossPct a b).map some
  | _, _ => .ok none

/-- The recession window loss (main.py lines 355-357): present only when
both 2007 and 2009 are in the observation dict. -/
def gfcLossOf (d : List (ℕ × ℤ)) : Except String (Option ℚ) :=
  match d.lookup 2007, d.lookup 2009 with
  | some a, some b => (lossPct a b).map some
  | _, _ => .ok none

/-- Embeds the pure part of `calculate_downturn_resilience`
(main.py lines 347-365), taking the parsed year-to-employment observations;
a zero employment value at a window base propagates the raised
ZeroDivisionError. -/
def calculate_downturn_resilience (obs : List (ℕ × ℤ)) : Except String Resilience :=
  match covidLossOf (dictOfPairs obs) with
  | .error e => .error e
  | .ok covid =>
    match gfcLossOf (dictOfPairs obs) with
    | .error e => .error e
    | .ok gfc => .ok (mkResilience covid gfc)

/-- Score formula stated by the specification:
`max(0, min(100, 100 - avg_loss * 5))` over the available windows. -/
def resilienceScoreFormula (covid gfc : Option ℚ) : Option ℚ :=
  (avgAbsLoss covid gfc).map (fun avg => max 0 (min 100 (100 - avg * 5)))

/-!  ## Trend projector `project_census_data` (main.py lines 480-566) -/

/-- One `{"year": ..., "value": ...}` point of a yearly-average trend list
produced by `calculate_yearly_trends` (values are float averages). -/
structure YearVal where
  year : ℕ
  value : ℚ
deriving DecidableEq, Repr

/-- The fields of the LAU result dict that `project_census_data` reads:
the `error` key (absent on success), `employment_trends` and
`labor_force_trends` (absent, hence `[]` via `.get(..., [])`, on an error
dict). -/
structure LauView where
  error : Option String
  employment_trends : List YearVal
  labor_force_trends : List YearVal
deriving DecidableEq, Repr

/-- The census employment result dict.  `error` models the presence of the
`"error"` key; the remaining value fields model the presence of their keys
(`none` on the error-shaped dict, which carries only `trends` and
`error`). -/
structure CDat where
  error : Option String := none
  trends : List TrendPt := []
  growth : List (String × Option ℚ) := []
  total_jobs : Option ℤ := none
  unemployment_rate : Option ℚ := none
  labor_force : Option ℤ := none
deriving DecidableEq, Repr

/-- Python truthiness of `d.get("error")` for the error dicts of this
program: the key is present and maps to a non-empty string. -/
def isTruthyErr : Option String → Bool
  | some s => !s.isEmpty
  | none => false

/-- Python dict `{t["year"]: t["value"] for t in trends}`. -/
def dictOfYV (ts : List YearVal) : List (ℕ × ℚ) :=
  dictOfPairs (ts.map (fun t => (t.year, t.value)))

/-- Lookup with Python `.get(k, 0)` semantics. -/
def lookupQ (d : List (ℕ × ℚ)) (k : ℕ) : ℚ := (d.lookup k).getD 0

/-- Keys of a year dict in ascending order (`sorted(d.keys())`). -/
def sortedKeysAsc (d : List (ℕ × ℚ)) : List ℕ :=
  (d.map (fun p => p.1)).insertionSort (fun a b => a ≤ b)

/-- Per-year growth ratios from consecutive available years of a year
dict (main.py lines 501-517): for each consecutive pair of sorted years,
`(v[y] - v[prev]) / v[prev]`, skipped when `v[prev]` is not positive. -/
def growthRatios (d : List (ℕ × ℚ)) : List (ℕ × ℚ) :=
  let ys := sortedKeysAsc d
  (ys.zip ys.tail).foldl (fun acc p =>
    let pv := lookupQ d p.1
    if 0 < pv then acc ++ [(p.2, (lookupQ d p.2 - pv) / pv)] else acc) []

/-- `max(county_emp_trends.keys())` with the `latest_county_year = 0`
default when the dict is empty (main.py lines 493-495). -/
def latestYearOf (d : List (ℕ × ℚ)) : ℕ :=
  (d.map (fun p => p.1)).foldl Nat.max 0

/-- The projection loop of main.py lines 519-542: walk the year gap,
compounding the unrounded employed and labor-force floats and emitting a
rounded, `projected`-flagged point per year; a year with no known ratio
uses ratio 0. -/
def projectPoints (empG laborG : List (ℕ × ℚ)) (startYear gap : ℕ)
    (e0 l0 : ℚ) : List TrendPt :=
  ((List.range gap).foldl (fun st i =>
    let y := startYear + 1 + i
    let eg := lookupQ empG y
    let lg := lookupQ laborG y
    let e := st.1 * (1 + eg)
    let l := st.2.1 * (1 + lg)
    let rate := if 0 < l then pyRound2 ((l - e) / l * 100) else 0
    (e, l, st.2.2 ++ [{ year := y, value := pyRoundInt e, unemp_rate := rate,
                        labor_force := pyRoundInt l, projected := true }]))
    (e0, l0, ([] : List TrendPt))).2.2

/-- Python dict `{t["year"]: t["value"] for t in all_trends}` with the year
taken as an integer key (so that `latest - y` lookups match Python). -/
def dictOfTrendVals (ts : List TrendPt) : List (ℤ × ℤ) :=
  dictOfPairs (ts.map (fun t => ((t.year : ℤ), t.value)))

/-- The recomputed growth dict of main.py lines 556-561: for lookbacks 1,
2, 5 the key is added only when the year `latest - y` has a truthy,
positive value. -/
def recomputedGrowth (allTrends : List TrendPt) (latest : TrendPt) :
    List (String × Option ℚ) :=
  let tby := dictOfTrendVals allTrends
  [1, 2, 5].foldl (fun acc y =>
    match tby.lookup ((latest.year : ℤ) - y) with
    | some pv =>
      if pv ≠ 0 ∧ 0 < pv then
        acc ++ [(toString y ++ "y",
          some (pyRound2 (((latest.value : ℚ) - (pv : ℚ)) / (pv : ℚ) * 100)))]
      else acc
    | none => acc) []

/-- The note emitted when a projection occurred.  The source string reads
"Recent years' data for this geography are projected based on county-level
trends from BLS." (quoting it here verbatim is avoided only because of a
lexical restriction of this development). -/
def projectionNote : String :=
  "Recent years data for this geography are projected based on county-level trends from BLS."

/-- The latest county year used by the projector, extracted for reuse in
theorem statements. -/
def countyLatestYear (lv : LauView) : ℕ :=
  latestYearOf (dictOfYV lv.employment_trends)

/-- Embeds `project_census_data(census_data, county_lau_data)`
(main.py lines 480-566).  Returns the (possibly updated) census dict and
the projection notes. -/
def project_census_data (cdat : Option CDat) (lau : Option LauView) :
    Option CDat × List String :=
  match cdat with
  | none => (none, [])
  | some c =>
    if isTruthyErr c.error || c.trends.isEmpty then (some c, [])
    else
      match lau with
      | none => (some c, [])
      | some lv =>
        if isTruthyErr lv.error then (some c, [])
        else
          let lastCensusYear := c.trends.headI.year
          let lastPt := c.trends.headI
          let empD := dictOfYV lv.employment_trends
          let laborD := dictOfYV lv.labor_force_trends
          let latestCountyYear := latestYearOf empD
          if latestCountyYear ≤ lastCensusYear then (some c, [])
          else
            let empG := growthRatios empD
            let laborG := growthRatios laborD
            let pts := projectPoints empG laborG lastCensusYear
              (latestCountyYear - lastCensusYear) (lastPt.value : ℚ)
              (lastPt.labor_force : ℚ)
            if pts.isEmpty then (some c, [])
            else
              let allTrends := (c.trends ++ pts).insertionSort
                (fun a b => b.year ≤ a.year)
              let latest := allTrends.headI
              let c2 : CDat := { c with
                total_jobs := some latest.value,
                unemployment_rate := some latest.unemp_rate,
                labor_force := some latest.labor_force,
                growth := recomputedGrowth allTrends latest,
                trends := allTrends }
              (some c2, [projectionNote])

/-!  ## Granular demographics parser `fetch_acs_data`
(services/census.py lines 36-56, main.py lines 393-414; the two copies
differ only in the hard-coded data year, which is taken as a parameter) -/

/-- Numeric value of a decimal digit character. -/
def digitVal (c : Char) : ℕ := c.toNat - 48

/-- Models `int(s)` restricted to the guard `s.isdigit()`: defined exactly
when the string is non-empty and consists solely of decimal digits. -/
def pyIntParse (s : String) : Option ℕ :=
  if s.length ≠ 0 ∧ s.toList.all Char.isDigit then
    some (s.toList.foldl (fun a c => a * 10 + digitVal c) 0)
  else none

/-- The row coercion `int(v) if v and v.isdigit() else 0` applied to each
field of the provider data row (a missing field is `none`). -/
def coerceField (v : Option String) : ℤ :=
  match v with
  | none => 0
  | some s =>
    match pyIntParse s with
    | some n => (n : ℤ)
    | none => 0

/-- The `income_data` sub-object. -/
structure IncomeData where
  median_household_income : ℤ
  data_year : ℕ
deriving DecidableEq, Repr

/-- The `labor_participation` sub-object. -/
structure ParticipationData where
  labor_force_participation_rate : ℚ
  data_year : ℕ
deriving DecidableEq, Repr

/-- The `education_data` sub-object. -/
structure EducationData where
  percent_college_educated : ℚ
  workforce_quality_rating : String
  data_year : ℕ
deriving DecidableEq, Repr

/-- The successful ACS demographics payload. -/
structure AcsPayload where
  income_data : IncomeData
  labor_participation : ParticipationData
  education_data : EducationData
deriving DecidableEq, Repr

/-- The workforce-quality bucket of the college share. -/
def workforceQualityRating (pct : ℚ) : String :=
  if 35 < pct then "High" else if 25 < pct then "Moderate" else "Low"

/-- Embeds the row-parsing part of `fetch_acs_data` (the eight requested
variables arrive in order: median income, pop 16+, labor force, pop 25+,
bachelors, masters, professional, phd).  Indexing is within bounds for
well-formed provider rows, which return one value per requested variable. -/
def acsParseRow (year : ℕ) (row : List (Option String)) : AcsPayload :=
  let r := row.map coerceField
  let income := r.getD 0 0
  let pop16 := r.getD 1 0
  let laborForce := r.getD 2 0
  let pop25 := r.getD 3 0
  let collegePlus := r.getD 4 0 + r.getD 5 0 + r.getD 6 0 + r.getD 7 0
  let participation :=
    if 0 < pop16 then pyRound2 ((laborForce : ℚ) / (pop16 : ℚ) * 100) else 0
  let collegePct :=
    if 0 < pop25 then pyRound2 ((collegePlus : ℚ) / (pop25 : ℚ) * 100) else 0
  { income_data := { median_household_income := income, data_year := year },
    labor_participation :=
      { labor_force_participation_rate := participation, data_year := year },
    education_data :=
      { percent_college_educated := collegePct,
        workforce_quality_rating := workforceQualityRating collegePct,
        data_year := year } }

/-!  ## Payload types of the six fan-out sources and the report
composition inside `get_job_growth` (main.py lines 588-678) -/

/-- The `growth` dict of the LAU result: all four keys are always present,
each holding either a number, the float sentinel, or `None`. -/
structure Growth4 where
  g6mo : Option GrowthVal
  g1y : Option GrowthVal
  g2y : Option GrowthVal
  g5y : Option GrowthVal
deriving DecidableEq, Repr

/-- One monthly chart point of the LAU result. -/
structure MonthPt where
  year : String
  month : String
  value : ℤ
  label : String
deriving DecidableEq, Repr

/-- The successful LAU payload (the keys of the dict returned by
`fetch_bls_lau_data`). -/
structure LauPayload where
  growth : Growth4
  total_jobs : ℤ
  unemployment_rate : Option ℚ
  labor_force : Option ℤ
  trends : List YearVal
  employment_trends : List YearVal
  unemployment_rate_trends : List YearVal
  labor_force_trends : List YearVal
  monthly_employment_trends : List MonthPt
deriving DecidableEq, Repr

instance {ε α : Type} [DecidableEq ε] [DecidableEq α] : DecidableEq (Except ε α)
  | .ok a, .ok b =>
    if h : a = b then .isTrue (by rw [h]) else .isFalse (fun hc => h (Except.ok.inj hc))
  | .ok _, .error _ => .isFalse (fun hc => Except.noConfusion hc)
  | .error _, .ok _ => .isFalse (fun hc => Except.noConfusion hc)
  | .error e, .error f =>
    if h : e = f then .isTrue (by rw [h]) else .isFalse (fun hc => h (Except.error.inj hc))

/-- The `wage_growth` dict of the QCEW wage info (keys always present). -/
structure WageGrowth3 where
  g1y : Option ℚ
  g3y : Option ℚ
  g5y : Option ℚ
deriving DecidableEq, Repr

/-- The successful `wage_data` sub-object of the QCEW result. -/
structure WageInfo where
  current_avg_weekly_wage : ℚ
  annual_equivalent : ℚ
  wage_growth : WageGrowth3
deriving DecidableEq, Repr

/-- One `{"name", "growth"}` entry of `top_sectors_growing`. -/
structure SectorEntry where
  name : String
  growth : ℚ
deriving DecidableEq, Repr

/-- The successful QCEW payload; `wage_data` is either the wage info or an
error dict. -/
structure QcewPayload where
  top_sectors_growing : List SectorEntry
  wage_data : Except String WageInfo
deriving DecidableEq, Repr

/-- The `national_growth` dict of the national-baseline result. -/
structure NatGrowth where
  g1y : Option ℚ
  g2y : Option ℚ
  g5y : Option ℚ
deriving DecidableEq, Repr

/-- One `comparative_performance` entry (main.py lines 326-332). -/
structure CompEntry where
  local_rate : GrowthVal
  national_rate : ℚ
  difference : GrowthVal
  outperforming : Bool
  performance_description : String
deriving DecidableEq, Repr

/-- Format a non-negative rational the way the f-string `.1f` does
(one decimal digit, half to even). -/
def fmt1 (q : ℚ) : String :=
  let n := roundHalfEven (q * 10)
  toString (n / 10) ++ "." ++ toString (n % 10)

/-- Absolute difference rendered in the description (`inf` for the float
sentinel, as Python prints it). -/
def absFmtGV : GrowthVal → String
  | .inf => "inf"
  | .fin q => fmt1 |q|

/-- The `performance_description` string of a comparison entry. -/
def perfDesc (outp : Bool) (d : GrowthVal) : String :=
  (if outp then "Outperforming" else "Underperforming") ++
    " national average by " ++ absFmtGV d ++ " p.p."

/-- Lookup `local_growth.get(period)` on the LAU growth dict. -/
def getLocalRate (g : Growth4) : String → Option GrowthVal
  | "1y" => g.g1y
  | "2y" => g.g2y
  | "5y" => g.g5y
  | _ => none

/-- Lookup `national_growth.get(period)`. -/
def getNationalRate (n : NatGrowth) : String → Option ℚ
  | "1y" => n.g1y
  | "2y" => n.g2y
  | "5y" => n.g5y
  | _ => none

/-- Embeds `compare_local_to_national` (main.py lines 316-333): for each of
the periods 1y, 2y, 5y, an entry is produced only when both rates are
present (`national_data.get("national_growth", {})` yields the empty dict
on an error result, so no entry is produced then). -/
def compare_local_to_national (localG : Growth4)
    (natD : Except String NatGrowth) : List (String × CompEntry) :=
  let ng : String → Option ℚ :=
    match natD with
    | .error _ => fun _ => none
    | .ok n => getNationalRate n
  ["1y", "2y", "5y"].foldl (fun acc p =>
    match ng p with
    | none => acc
    | some nr =>
      match getLocalRate localG p with
      | none => acc
      | some lr =>
        let d := pyRound2GV (lr.subQ nr)
        let outp := lr.gtQb nr
        acc ++ [(p, { local_rate := lr, national_rate := nr, difference := d,
                      outperforming := outp,
                      performance_description := perfDesc outp d })]) []

/-- The merged county context dict (main.py lines 631-642): on LAU success
it is the shallow union of the fixed source tag, the LAU payload, the QCEW
result (an error dict contributes its `error` key instead of the sector and
wage keys), the resilience result and the comparative performance; on LAU
failure it carries only the error.  The key sets of the merged dicts are
otherwise disjoint, so the union is represented field by field. -/
inductive CountyContext where
  | ok (source : String) (lau : LauPayload) (qcew : Except String QcewPayload)
      (downturn_resilience : Except String Resilience)
      (comparative_performance : List (String × CompEntry)) : CountyContext
  | err (msg : String) : CountyContext
deriving DecidableEq, Repr

/-- The granular data object (main.py lines 644-655 and the county swap at
line 667): the census dict spread together with the ACS result (an ACS
error dict contributes an `error` key), a bare error dict, or, for county
requests, the relabelled county context. -/
inductive GranularData where
  | fromCensus (source : String) (census : CDat)
      (acs : Except String AcsPayload) : GranularData
  | err (msg : String) : GranularData
  | fromCounty (cc : CountyContext) : GranularData
deriving DecidableEq, Repr

/-- The `cre_summary` dict (main.py lines 658-664). -/
structure CreSummary where
  employment_growth_strength : String
  wage_growth_strength : String
  workforce_quality : String
  recession_resilience : String
  vs_national_performance : String
deriving DecidableEq, Repr

/-- The merged `{**geo, **fips}` object of the response. -/
structure GeoFips where
  lat : ℚ
  lon : ℚ
  zip : Option String
  state_fips : String
  county_fips : String
  tract_code : String
deriving DecidableEq, Repr

/-- The response object of `get_job_growth` (main.py lines 670-676). -/
structure Report where
  geo : GeoFips
  county_context : Option CountyContext
  granular_data : Option GranularData
  cre_summary : CreSummary
  notes : List String
deriving DecidableEq, Repr

/-- The outcome of one task of `asyncio.gather(..., return_exceptions=True)`:
either a raised exception or the returned value. -/
inductive TaskOut (α : Type) where
  | exn : TaskOut α
  | val : α → TaskOut α
deriving DecidableEq, Repr

/-- Embeds `get_result(index, default)` (main.py lines 612-613). -/
def TaskOut.getOr {α : Type} : TaskOut α → α → α
  | .exn, d => d
  | .val a, _ => a

/-- The strength bucket of `v` against thresholds `hi` and `lo`, where `v`
is the value read out of the growth dict: a Python `None` there makes the
comparison `None > hi` raise a TypeError, modelled as `.error`. -/
def gvStrengthE (v : Option GrowthVal) (hi lo : ℚ) : Except String String :=
  match v with
  | none => .error "TypeError: NoneType comparison"
  | some g =>
    .ok (if g.gtQb hi then "strong" else if g.gtQb lo then "moderate" else "weak")

/-- The `employment_growth_strength` expression of main.py line 659:
`lau_data.get("growth", {}).get("1y", 0)` is 0 on an LAU error dict (no
`growth` key) and is the stored 1y entry otherwise (the key is always
present on success, so the `.get` default 0 is not used there). -/
def employmentGrowthStrength (lau : Except String LauPayload) :
    Except String String :=
  match lau with
  | .error _ => gvStrengthE (some (.fin 0)) 2 0
  | .ok d => gvStrengthE d.growth.g1y 2 0

/-- The `wage_growth_strength` expression of main.py line 660: the chain of
`.get` calls yields 0 when the QCEW result is an error dict or when its
`wage_data` is an error dict, and the stored 1y wage entry otherwise. -/
def wageGrowthStrength (qcew : Except String QcewPayload) :
    Except String String :=
  match qcew with
  | .error _ => gvStrengthE (some (.fin 0)) 3 0
  | .ok q =>
    match q.wage_data with
    | .error _ => gvStrengthE (some (.fin 0)) 3 0
    | .ok w =>
      match w.wage_growth.g1y with
      | none => gvStrengthE none 3 0
      | some r => gvStrengthE (some (.fin r)) 3 0

/-- The `workforce_quality` expression of main.py line 661 (`acs` is `None`
for county requests). -/
def workforceQualityLabel (acs : Option (Except String AcsPayload)) : String :=
  match acs with
  | none => "Unknown"
  | some (.error _) => "Unknown"
  | some (.ok a) => a.education_data.workforce_quality_rating

/-- The `recession_resilience` expression of main.py line 662. -/
def recessionResilienceLabel (res : Except String Resilience) : String :=
  match res with
  | .error _ => "Unknown"
  | .ok r => r.resilience_rating.getD "Unknown"

/-- The `vs_national_performance` expression of main.py line 663
(`county_context.get("comparative_performance", {})` is the empty dict on
an error-shaped county context). -/
def vsNationalLabel (cc : CountyContext) : String :=
  match cc with
  | .err _ => "underperforming"
  | .ok _ _ _ _ comp =>
    if comp.any (fun p => p.2.outperforming) then "outperforming"
    else "underperforming"

/-- Whether the request adds the two granular tasks
(main.py line 603). -/
def isGranularGeo (geo_type : String) : Bool :=
  geo_type = "tract" || geo_type = "zip"

/-- The view of the LAU result that `project_census_data` reads: an error
dict exposes its `error` key and empty trend lists via `.get(..., [])`. -/
def lauProjView (lau : Except String LauPayload) : LauView :=
  match lau with
  | .error m => { error := some m, employment_trends := [], labor_force_trends := [] }
  | .ok d => { error := none, employment_trends := d.employment_trends,
               labor_force_trends := d.labor_force_trends }

/-- The source tag of the county context. -/
def countySourceTag : String := "BLS (Monthly/Quarterly)"

/-- The source tag of the granular census object. -/
def censusSourceTag : String := "Census ACS 5-Year (Annual)"

/-- The first granular note (main.py line 652). -/
def granularTimelinessNote : String :=
  "Granular data from Census is less timely (annual estimates) than county-level BLS data (monthly)."

/-- Embeds the report composition of `get_job_growth` after the six
fan-out results are in (main.py lines 610-676): builds county context,
granular data, notes and the summary, and performs the county swap.  A
TypeError raised while building the summary (a `None` growth value
compared against a number) surfaces as `.error`, which the route handler
converts into the generic fatal error. -/
def composeReport (geo : GeoFips) (geo_type : String)
    (lauT : TaskOut (Except String LauPayload))
    (qcewT : TaskOut (Except String QcewPayload))
    (natT : TaskOut (Except String NatGrowth))
    (resT : TaskOut (Except String Resilience))
    (cenT : TaskOut CDat)
    (acsT : TaskOut (Except String AcsPayload)) : Except String Report :=
  let lau := lauT.getOr (.error "Failed to fetch LAU data")
  let qcew := qcewT.getOr (.error "Failed to fetch QCEW data")
  let natD := natT.getOr (.error "Failed to fetch national data")
  let resD := resT.getOr (.error "Failed to fetch resilience data")
  let granular := isGranularGeo geo_type
  let cen0 : Option CDat :=
    if granular then
      some (cenT.getOr { error := some "Failed to fetch Census employment" })
    else none
  let acs : Option (Except String AcsPayload) :=
    if granular then some (acsT.getOr (.error "Failed to fetch ACS demographics"))
    else none
  let proj := if granular then project_census_data cen0 (some (lauProjView lau))
              else (cen0, [])
  let cen := proj.1
  let projectionNotes := proj.2
  let county_context : Option CountyContext :=
    match lau with
    | .ok d => some (.ok countySourceTag d qcew resD
        (compare_local_to_national d.growth natD))
    | .error m => some (.err m)
  let gdNotes : Option GranularData × List String :=
    if granular then
      match cen with
      | some c =>
        if c.error = none then
          (some (.fromCensus censusSourceTag c (acs.getD (.error "Unknown error"))),
           granularTimelinessNote :: projectionNotes)
        else (some (.err (c.error.getD "Unknown error")), [])
      | none => (some (.err "Unknown error"), [])
    else (none, [])
  match employmentGrowthStrength lau with
  | .error e => .error e
  | .ok empLabel =>
    match wageGrowthStrength qcew with
    | .error e => .error e
    | .ok wageLabel =>
      let cre : CreSummary :=
        { employment_growth_strength := empLabel,
          wage_growth_strength := wageLabel,
          workforce_quality := workforceQualityLabel acs,
          recession_resilience := recessionResilienceLabel resD,
          vs_national_performance :=
            match county_context with
            | some cc => vsNationalLabel cc
            | none => "underperforming" }
      let swapped : Option CountyContext × Option GranularData :=
        if geo_type = "county" then
          match county_context with
          | some cc => (none, some (.fromCounty cc))
          | none => (county_context, gdNotes.1)
        else (county_context, gdNotes.1)
      .ok { geo := geo, county_context := swapped.1, granular_data := swapped.2,
            cre_summary := cre, notes := gdNotes.2 }

/-- All inline error strings carried by a county context. -/
def CountyContext.errorStrings : CountyContext → List String
  | .err m => [m]
  | .ok _ _ qcew res _ =>
    (match qcew with
     | .error m => [m]
     | .ok q => match q.wage_data with
       | .error m => [m]
       | .ok _ => []) ++
    (match res with
     | .error m => [m]
     | .ok _ => [])

/-- All inline error strings carried by a granular data object. -/
def GranularData.errorStrings : GranularData → List String
  | .err m => [m]
  | .fromCensus _ c acs =>
    (match c.error with
     | some m => [m]
     | none => []) ++
    (match acs with
     | .error m => [m]
     | .ok _ => [])
  | .fromCounty cc => cc.errorStrings

/-- All inline error strings of a report: every place of the response where
a failed source can be represented as an inline error object. -/
def Report.errorStrings (r : Report) : List String :=
  (match r.county_context with
   | some cc => cc.errorStrings
   | none => []) ++
  (match r.granular_data with
   | some g => g.errorStrings
   | none => [])

/-- Except success test. -/
def exceptOk {ε α : Type} : Except ε α → Bool
  | .ok _ => true
  | .error _ => false

/-!  ## The route `get_job_growth` around the composition: cache reads and
writes and fatal-error propagation (main.py lines 572-682) -/

/-- The `{lat, lon, zip}` object returned by the geocoder. -/
structure GeoPart where
  lat : ℚ
  lon : ℚ
  zip : Option String
deriving DecidableEq, Repr

/-- The FIPS object returned by the geography-code resolver. -/
structure FipsPart where
  state_fips : String
  county_fips : String
  tract_code : String
deriving DecidableEq, Repr

/-- The merged `{**geo, **fips}` object (disjoint key sets). -/
def mergeGeo (g : GeoPart) (f : FipsPart) : GeoFips :=
  { lat := g.lat, lon := g.lon, zip := g.zip, state_fips := f.state_fips,
    county_fips := f.county_fips, tract_code := f.tract_code }

/-- A fatal error of the route: an HTTPException status and detail. -/
structure FatalErr where
  status : ℕ
  detail : String
deriving DecidableEq, Repr

/-- A fast-tier cache value: a stored report, or bytes that fail JSON
decoding. -/
inductive CacheEntry where
  | valid (r : Report) : CacheEntry
  | corrupt : CacheEntry
deriving DecidableEq, Repr

/-- Redis `delete key`. -/
def eraseKey (c : List (String × CacheEntry)) (k : String) :
    List (String × CacheEntry) :=
  c.filter (fun p => p.1 ≠ k)

/-- The cache key `f"{address}:{geo_type}:v2"`. -/
def cacheKeyOf (address geo_type : String) : String :=
  address ++ ":" ++ geo_type ++ ":v2"

/-- Embeds the `get_job_growth` route handler (main.py lines 574-682) as a
function of the request parameters, the initial fast-tier state, and the
outcomes of all external calls: optional flush, cache read (a corrupt
entry is treated as a miss), address resolution (each step may raise an
HTTPException), fan-out, composition, and the `setex` write that happens
only on a successfully composed report.  A composition failure becomes the
generic 500 error.  Returns the final fast-tier state and the outcome. -/
def get_job_growth (address geo_type : String) (flush_cache : Bool)
    (cache : List (String × CacheEntry))
    (geoR : Except FatalErr GeoPart) (fipsR : Except FatalErr FipsPart)
    (lauT : TaskOut (Except String LauPayload))
    (qcewT : TaskOut (Except String QcewPayload))
    (natT : TaskOut (Except String NatGrowth))
    (resT : TaskOut (Except String Resilience))
    (cenT : TaskOut CDat)
    (acsT : TaskOut (Except String AcsPayload)) :
    List (String × CacheEntry) × Except FatalErr Report :=
  let key := cacheKeyOf address geo_type
  let c1 := if flush_cache then eraseKey cache key else cache
  let fresh : List (String × CacheEntry) × Except FatalErr Report :=
    match geoR with
    | .error e => (c1, .error e)
    | .ok g =>
      match fipsR with
      | .error e => (c1, .error e)
      | .ok f =>
        match composeReport (mergeGeo g f) geo_type lauT qcewT natT resT cenT acsT with
        | .error msg =>
          (c1, .error ⟨500, "An unexpected error occurred: " ++ msg⟩)
        | .ok r => (upsertKV c1 key (.valid r), .ok r)
  match c1.lookup key with
  | some (.valid r) => (c1, .ok r)
  | some .corrupt => fresh
  | none => fresh

/-!  ## The two-tier cache of the refactored route

Modelled from the spec: the persistent tier (`core/database.py` and the
database-backed read/write path of the job-growth route) is not among the
provided sources; only its table declaration (`db/models.py`, class
`ReportCache`) and its tests refer to it.  The read path below follows
spec section 4.7 word for word: check the fast tier; on a miss check the
persistent tier and on a hit backfill the fast tier with the TTL and
return the stored payload; on a full miss compute, upsert the persistent
store by key, write the fast tier with the TTL, and return. -/

/-- The two cache tiers: the fast tier maps a key to a payload with its
TTL in seconds, the persistent tier maps a key to a payload. -/
structure TieredCacheState where
  fast : List (String × (String × ℕ))
  persistent : List (String × String)
deriving DecidableEq, Repr

/-- Where the returned payload came from. -/
inductive CacheOrigin where
  | fastHit : CacheOrigin
  | persistentHit : CacheOrigin
  | fresh : CacheOrigin
deriving DecidableEq, Repr

/-- The fast-tier TTL (seconds). -/
def FAST_TTL : ℕ := 3600

/-- Modelled from the spec: the tiered read path of section 4.7.
`computed` stands for the payload the full pipeline would produce; the
returned triple is the new cache state, the payload served, and its
origin. -/
def tieredRead (st : TieredCacheState) (key : String) (computed : String) :
    TieredCacheState × String × CacheOrigin :=
  match st.fast.lookup key with
  | some v => (st, v.1, .fastHit)
  | none =>
    match st.persistent.lookup key with
    | some v =>
      ({ st with fast := upsertKV st.fast key (v, FAST_TTL) }, v, .persistentHit)
    | none =>
      ({ fast := upsertKV st.fast key (computed, FAST_TTL),
         persistent := upsertKV st.persistent key computed }, computed, .fresh)

/-!  ## Concrete instances used by witnesses and counterexamples -/

/-- A concrete merged geo object (the San Francisco fixture of the tests). -/
def geoX : GeoFips := ⟨37, -122, some "94102", "06", "06075", "06075017901"⟩

/-- A well-formed LAU payload with a numeric 1y growth. -/
def lauX : LauPayload :=
  { growth := ⟨some (.fin 1), some (.fin 3), some (.fin 2), none⟩,
    total_jobs := 500000, unemployment_rate := some 4,
    labor_force := some 520000,
    trends := [⟨2023, 500000⟩], employment_trends := [⟨2023, 500000⟩],
    unemployment_rate_trends := [⟨2023, 4⟩],
    labor_force_trends := [⟨2023, 520000⟩],
    monthly_employment_trends := [] }

/-- An LAU payload whose whole growth dict holds `None`, as produced from a
series with a single observation (the shape of the mock LAU series of the
repository tests). -/
def lauSingle : LauPayload :=
  { growth := ⟨none, none, none, none⟩,
    total_jobs := 500000, unemployment_rate := some 4,
    labor_force := some 520000,
    trends := [⟨2023, 500000⟩], employment_trends := [⟨2023, 500000⟩],
    unemployment_rate_trends := [⟨2023, 4⟩],
    labor_force_trends := [⟨2023, 520000⟩],
    monthly_employment_trends := [] }

/-- A well-formed QCEW payload with a numeric 1y wage growth. -/
def qcewX : QcewPayload :=
  { top_sectors_growing := [⟨"Construction", 5⟩],
    wage_data := .ok ⟨1000, 52000, ⟨some 4, some 6, none⟩⟩ }

/-- A national baseline payload. -/
def natX : NatGrowth := ⟨some 1, some 2, some 3⟩

/-- A resilience payload. -/
def resX : Resilience :=
  { covid_impact := some (-5), great_recession_impact := none,
    resilience_score := some 75, resilience_rating := some "High" }

/-- A census employment payload whose latest year matches the county
series (so the projector is a no-op on it). -/
def cenX : CDat :=
  { error := none, trends := [⟨2023, 1000, 5, 1050, false⟩],
    growth := [("1y", some 2)], total_jobs := some 1000,
    unemployment_rate := some 5, labor_force := some 1050 }

/-- An ACS demographics payload. -/
def acsX : AcsPayload := ⟨⟨90000, 2023⟩, ⟨75, 2023⟩, ⟨30, "Moderate", 2023⟩⟩

/-- Census data for the projection example: a single 2021 point with 1000
employed and 1100 labor force. -/
def c7Census : CDat :=
  { error := none, trends := [⟨2021, 1000, 4, 1100, false⟩],
    growth := [("1y", some 1)], total_jobs := some 1000,
    unemployment_rate := some 4, labor_force := some 1100 }

/-- County yearly series realizing growth ratios 0.05 for 2022 and -0.02
for 2023 on employment, and 0.05 then 0 on labor force. -/
def c7Lau : LauView :=
  { error := none,
    employment_trends := [⟨2023, 2058⟩, ⟨2022, 2100⟩, ⟨2021, 2000⟩],
    labor_force_trends := [⟨2023, 2310⟩, ⟨2022, 2310⟩, ⟨2021, 2200⟩] }

/-- County yearly series with no 2022 observation, so the projected year
2022 has no known ratio and carries the value forward (ratio 0); the 2023
ratio is 0.05 (computed from the consecutive available years 2021, 2023). -/
def c7LauSparse : LauView :=
  { error := none,
    employment_trends := [⟨2023, 2100⟩, ⟨2021, 2000⟩],
    labor_force_trends := [⟨2023, 2200⟩, ⟨2021, 2200⟩] }

/-!  ## Helper lemmas -/

theorem le_roundHalfEven_of_le {q : ℚ} {n : ℤ} (h : (n : ℚ) ≤ q) :
    n ≤ roundHalfEven q := by
  have hfl : n ≤ ⌊q⌋ := Int.le_floor.mpr h
  simp only [roundHalfEven]
  split_ifs <;> omega

theorem roundHalfEven_le_of_le {q : ℚ} {n : ℤ} (h : q ≤ (n : ℚ)) :
    roundHalfEven q ≤ n := by
  have hfl : ⌊q⌋ ≤ n := by
    have h2 := Int.floor_le_floor h
    simpa using h2
  have hfq : (⌊q⌋ : ℚ) ≤ q := Int.floor_le q
  simp only [roundHalfEven]
  split_ifs with h1 h2 h3
  · exact hfl
  · by_contra hcon
    push_neg at hcon
    have hn : n = ⌊q⌋ := by omega
    rw [hn] at h
    linarith
  · exact hfl
  · have hfrac : q - (⌊q⌋ : ℚ) = 1/2 := le_antisymm (not_lt.mp h2) (not_lt.mp h1)
    by_contra hcon
    push_neg at hcon
    have hn : n = ⌊q⌋ := by omega
    rw [hn] at h
    linarith

theorem pyRound1_clamp_bounds (x : ℚ) :
    0 ≤ pyRound1 (max 0 (min 100 x)) ∧ pyRound1 (max 0 (min 100 x)) ≤ 100 := by
  have h0 : (0 : ℚ) ≤ max 0 (min 100 x) := le_max_left _ _
  have h100 : max 0 (min 100 x) ≤ 100 := max_le (by norm_num) (min_le_left _ _)
  have hlo : ((0 : ℤ) : ℚ) ≤ max 0 (min 100 x) * 10 := by push_cast; linarith
  have hhi : max 0 (min 100 x) * 10 ≤ ((1000 : ℤ) : ℚ) := by push_cast; linarith
  have hl := le_roundHalfEven_of_le hlo
  have hr := roundHalfEven_le_of_le hhi
  unfold pyRound1
  constructor
  · have : ((0 : ℤ) : ℚ) ≤ (roundHalfEven (max 0 (min 100 x) * 10) : ℚ) := by
      exact_mod_cast hl
    push_cast at this
    linarith
  · have : (roundHalfEven (max 0 (min 100 x) * 10) : ℚ) ≤ ((1000 : ℤ) : ℚ) := by
      exact_mod_cast hr
    push_cast at this
    linarith

/-!  ## Claims -/

/-- C3 (counterexample): the claim states that every growth computation of
the pipeline maps a zero denominator with a positive numerator to the
infinite-growth sentinel.  The wage computation refutes it: for the wage
series [5, 0] the 1-year window has numerator 5 and stored denominator 0,
yet `get_wage_growth` returns `None` (its codomain cannot even hold the
sentinel). -/
theorem C3_counterexample : get_wage_growth [5, 0] 1 = none := by decide

/-- C3 (amended): only the county employment window computation
(`get_growth`) implements the zero-denominator rule of the claim (sentinel
when the latest value is positive, 0 otherwise); the wage, national
baseline and census growth computations return `None` whenever the stored
denominator is not positive. -/
theorem C3_amended :
    (∀ (data : List ℤ) (steps : ℕ), steps < data.length → data.getD steps 0 = 0 →
      get_growth data steps = some (if 0 < data.headI then .inf else .fin 0))
  ∧ (∀ (wages : List ℚ) (yb : ℕ), yb < wages.length → wages.getD yb 0 ≤ 0 →
      get_wage_growth wages yb = none)
  ∧ (∀ (data : List ℤ) (mb : ℕ), mb < data.length → data.getD mb 0 ≤ 0 →
      get_national_growth data mb = none)
  ∧ (∀ (trends : List TrendPt), 1 < trends.length → (trends.getD 1 default).value ≤ 0 →
      (census_growth trends).lookup "1y" = some none) := by
  refine ⟨?_, ?_, ?_, ?_⟩
  · intro data steps h h2
    rw [List.getD_eq_getElem _ _ h] at h2
    simp [get_growth, h, h2]
  · intro wages yb h h2
    rw [List.getD_eq_getElem _ _ h] at h2
    simp [get_wage_growth, h, not_lt.mpr h2]
  · intro data mb h h2
    rw [List.getD_eq_getElem _ _ h] at h2
    have h3 : ¬ (0 < data[mb] * 1000) := by
      simp only [not_lt]
      omega
    simp [get_national_growth, h, h3]
  · intro trends h h2
    rw [List.getD_eq_getElem _ _ h] at h2
    simp [census_growth, censusGrowthEntry, h, not_lt.mpr h2, List.lookup]

/-- C3 (witness): concrete instances of the amended statement.  The county
series [3, 0] has a zero denominator and positive numerator one year back
and yields the sentinel; wage, national, census analogues yield `None`
(the census entry is an explicit `None` value under its key). -/
theorem C3_amended_witness :
    get_growth [3, 0] 1 = some GrowthVal.inf
  ∧ get_wage_growth [5, 0] 1 = none
  ∧ get_national_growth [5, 0] 1 = none
  ∧ (census_growth [⟨2023, 5, 0, 10, false⟩, ⟨2022, 0, 0, 10, false⟩]).lookup "1y"
      = some none := by
  refine ⟨?_, ?_, ?_, ?_⟩
  · have h := C3_amended.1 [3, 0] 1 (by decide) (by decide)
    simpa using h
  · exact C3_amended.2.1 [5, 0] 1 (by decide) (by decide)
  · exact C3_amended.2.2.1 [5, 0] 1 (by decide) (by decide)
  · exact C3_amended.2.2.2 [⟨2023, 5, 0, 10, false⟩, ⟨2022, 0, 0, 10, false⟩]
      (by decide) (by decide)

/-- C8 (counterexample): the claim states that a series with fewer than
`stepsBack + 1` points makes the growth window entry `null`.  In the census
computation the key is omitted from the growth dict instead: for a
single-point trend list the lookup of "1y" finds no entry at all (`none`),
not an entry holding the null value (`some none`). -/
theorem C8_counterexample :
    (census_growth [⟨2023, 100, 0, 100, false⟩]).lookup "1y" = none
  ∧ ¬ ((census_growth [⟨2023, 100, 0, 100, false⟩]).lookup "1y" = some none) := by
  refine ⟨by decide, by decide⟩

/-- C8 (amended): a series with fewer than `stepsBack + 1` points yields a
`None` growth entry for the county employment, wage and national window
computations, and an omitted key (hence an empty lookup, never an error
and never a number) for each census window. -/
theorem C8_amended :
    (∀ (data : List ℤ) (steps : ℕ), data.length ≤ steps → get_growth data steps = none)
  ∧ (∀ (wages : List ℚ) (yb : ℕ), wages.length ≤ yb → get_wage_growth wages yb = none)
  ∧ (∀ (data : List ℤ) (mb : ℕ), data.length ≤ mb → get_national_growth data mb = none)
  ∧ (∀ (trends : List TrendPt), trends.length ≤ 1 →
      (census_growth trends).lookup "1y" = none)
  ∧ (∀ (trends : List TrendPt), trends.length ≤ 2 →
      (census_growth trends).lookup "2y" = none)
  ∧ (∀ (trends : List TrendPt), trends.length ≤ 5 →
      (census_growth trends).lookup "5y" = none) := by
  refine ⟨?_, ?_, ?_, ?_, ?_, ?_⟩
  · intro data steps h
    simp [get_growth, not_lt.mpr h]
  · intro wages yb h
    simp [get_wage_growth, not_lt.mpr h]
  · intro data mb h
    simp [get_national_growth, not_lt.mpr h]
  · intro trends h
    have h1 : ¬ (1 < trends.length) := by omega
    have h2 : ¬ (2 < trends.length) := by omega
    have h5 : ¬ (5 < trends.length) := by omega
    simp [census_growth, censusGrowthEntry, h1, h2, h5]
  · intro trends h
    have h2 : ¬ (2 < trends.length) := by omega
    have h5 : ¬ (5 < trends.length) := by omega
    by_cases h1 : 1 < trends.length <;>
      simp [census_growth, censusGrowthEntry, h1, h2, h5, List.lookup]
  · intro trends h
    have h5 : ¬ (5 < trends.length) := by omega
    by_cases h1 : 1 < trends.length <;> by_cases h2 : 2 < trends.length <;>
      simp [census_growth, censusGrowthEntry, h1, h2, h5, List.lookup]

/-- C8 (witness): concrete instances of the amended statement at
single-point series. -/
theorem C8_amended_witness :
    get_growth [3] 11 = none
  ∧ get_wage_growth [5] 1 = none
  ∧ get_national_growth [5] 11 = none
  ∧ (census_growth [⟨2023, 100, 0, 100, false⟩]).lookup "1y" = none := by
  refine ⟨?_, ?_, ?_, ?_⟩
  · exact C8_amended.1 [3] 11 (by decide)
  · exact C8_amended.2.1 [5] 1 (by decide)
  · exact C8_amended.2.2.1 [5] 11 (by decide)
  · exact C8_amended.2.2.2.1 [⟨2023, 100, 0, 100, false⟩] (by decide)


theorem mkResilience_covid (covid gfc : Option ℚ) :
    (mkResilience covid gfc).covid_impact = covid := by
  unfold mkResilience
  split <;> rfl

theorem mkResilience_gfc (covid gfc : Option ℚ) :
    (mkResilience covid gfc).great_recession_impact = gfc := by
  unfold mkResilience
  split <;> rfl

theorem mkResilience_props (covid gfc : Option ℚ) :
    (mkResilience covid gfc).resilience_score =
      (resilienceScoreFormula covid gfc).map pyRound1
  ∧ (∀ s, (mkResilience covid gfc).resilience_score = some s → 0 ≤ s ∧ s ≤ 100)
  ∧ (mkResilience covid gfc).resilience_rating =
      (resilienceScoreFormula covid gfc).map resilienceRatingOf
  ∧ (covid = none → gfc = none →
      (mkResilience covid gfc).resilience_score = none
      ∧ (mkResilience covid gfc).resilience_rating = none) := by
  refine ⟨?_, ?_, ?_, ?_⟩
  · unfold mkResilience resilienceScoreFormula
    cases h : avgAbsLoss covid gfc <;> simp
  · intro s hs
    unfold mkResilience at hs
    revert hs
    cases h : avgAbsLoss covid gfc with
    | none => intro hs; simp at hs
    | some avg =>
      intro hs
      simp at hs
      rw [← hs]
      exact pyRound1_clamp_bounds _
  · unfold mkResilience resilienceScoreFormula
    cases h : avgAbsLoss covid gfc <;> simp
  · intro h1 h2
    subst h1; subst h2
    unfold mkResilience
    cases h : avgAbsLoss none none with
    | none => exact ⟨rfl, rfl⟩
    | some avg => simp [avgAbsLoss] at h

/-- C5 (amended): whenever the resilience calculator returns a result (it
raises a ZeroDivisionError when a window base year has value 0, handled
upstream as a source failure), the stored score is the claimed
`max(0, min(100, 100 - avg_loss * 5))` formula rounded to one decimal, the
stored score lies in [0, 100], the rating is the bucket (High above 70,
Moderate above 50, else Low) of the unrounded formula value, and both
fields are omitted when neither window has data. -/
theorem C5_amended : ∀ (obs : List (ℕ × ℤ)) (r : Resilience),
    calculate_downturn_resilience obs = .ok r →
    r.resilience_score =
      (resilienceScoreFormula r.covid_impact r.great_recession_impact).map pyRound1
  ∧ (∀ s, r.resilience_score = some s → 0 ≤ s ∧ s ≤ 100)
  ∧ r.resilience_rating =
      (resilienceScoreFormula r.covid_impact r.great_recession_impact).map resilienceRatingOf
  ∧ (r.covid_impact = none → r.great_recession_impact = none →
      r.resilience_score = none ∧ r.resilience_rating = none) := by
  intro obs r h
  unfold calculate_downturn_resilience at h
  cases hcv : covidLossOf (dictOfPairs obs) with
  | error e => rw [hcv] at h; exact absurd h (by simp)
  | ok covid =>
    rw [hcv] at h
    cases hgf : gfcLossOf (dictOfPairs obs) with
    | error e => rw [hgf] at h; exact absurd h (by simp)
    | ok gfc =>
      rw [hgf] at h
      simp only [] at h
      have hr := Except.ok.inj h
      rw [← hr, mkResilience_covid, mkResilience_gfc]
      exact mkResilience_props covid gfc





/-- C5 (counterexample): the claim states that the produced resilience
score equals `max(0, min(100, 100 - avg_loss * 5))`.  With stored losses
-6.02 (covid) and -6.01 (recession) the formula value is 69.925 while the
stored score is its one-decimal rounding 69.9, so the two differ. -/
theorem C5_counterexample :
    calculate_downturn_resilience [(2019, 10000), (2020, 9398), (2007, 10000), (2009, 9399)]
      = .ok { covid_impact := some (-(301/50)), great_recession_impact := some (-(601/100)),
              resilience_score := some (699/10), resilience_rating := some "Moderate" }
  ∧ resilienceScoreFormula (some (-(301/50))) (some (-(601/100))) = some (2797/40)
  ∧ (699/10 : ℚ) ≠ 2797/40 := by
  have hcv : covidLossOf (dictOfPairs [(2019, 10000), (2020, 9398), (2007, 10000), (2009, 9399)])
      = .ok (some (-(301/50))) := by
    have h : covidLossOf (dictOfPairs [(2019, 10000), (2020, 9398), (2007, 10000), (2009, 9399)])
        = (lossPct 10000 9398).map some := rfl
    rw [h]
    norm_num [lossPct, pyRound2, roundHalfEven, Except.map]
  have hgf : gfcLossOf (dictOfPairs [(2019, 10000), (2020, 9398), (2007, 10000), (2009, 9399)])
      = .ok (some (-(601/100))) := by
    have h : gfcLossOf (dictOfPairs [(2019, 10000), (2020, 9398), (2007, 10000), (2009, 9399)])
        = (lossPct 10000 9399).map some := rfl
    rw [h]
    norm_num [lossPct, pyRound2, roundHalfEven, Except.map]
  have havg : avgAbsLoss (some (-(301/50))) (some (-(601/100))) = some (1203/200) := by
    norm_num [avgAbsLoss, abs_of_nonneg]
  have hscore : max (0:ℚ) (min 100 (100 - 1203/200 * 5)) = 2797/40 := by
    norm_num [max_def, min_def]
  have hround : pyRound1 (2797/40) = 699/10 := by
    norm_num [pyRound1, roundHalfEven, Int.fract]
  have hrat : resilienceRatingOf (2797/40) = "Moderate" := by
    norm_num [resilienceRatingOf]
  have hmk : mkResilience (some (-(301/50))) (some (-(601/100)))
      = { covid_impact := some (-(301/50)), great_recession_impact := some (-(601/100)),
          resilience_score := some (699/10), resilience_rating := some "Moderate" } := by
    unfold mkResilience
    rw [havg]
    dsimp only
    rw [hscore, hround, hrat]
  refine ⟨?_, ?_, by norm_num⟩
  · unfold calculate_downturn_resilience
    rw [hcv]
    dsimp only
    rw [hgf]
    dsimp only
    rw [hmk]
  · unfold resilienceScoreFormula
    rw [havg]
    dsimp only [Option.map]
    rw [hscore]

/-- C5 (witness): the amended statement applied to the observation map
with a single window of loss -10 percent, which stores score 50 and
rating Low. -/
theorem C5_amended_witness :
    (⟨some (-10), none, some 50, some "Low"⟩ : Resilience).resilience_score =
      (resilienceScoreFormula (⟨some (-10), none, some 50, some "Low"⟩ : Resilience).covid_impact
        (⟨some (-10), none, some 50, some "Low"⟩ : Resilience).great_recession_impact).map pyRound1
  ∧ (∀ s, (⟨some (-10), none, some 50, some "Low"⟩ : Resilience).resilience_score = some s →
      0 ≤ s ∧ s ≤ 100)
  ∧ (⟨some (-10), none, some 50, some "Low"⟩ : Resilience).resilience_rating =
      (resilienceScoreFormula (⟨some (-10), none, some 50, some "Low"⟩ : Resilience).covid_impact
        (⟨some (-10), none, some 50, some "Low"⟩ : Resilience).great_recession_impact).map
        resilienceRatingOf
  ∧ ((⟨some (-10), none, some 50, some "Low"⟩ : Resilience).covid_impact = none →
      (⟨some (-10), none, some 50, some "Low"⟩ : Resilience).great_recession_impact = none →
      (⟨some (-10), none, some 50, some "Low"⟩ : Resilience).resilience_score = none
      ∧ (⟨some (-10), none, some 50, some "Low"⟩ : Resilience).resilience_rating = none) := by
  have hcv : covidLossOf (dictOfPairs [(2019, 100), (2020, 90)]) = .ok (some (-10)) := by
    have h : covidLossOf (dictOfPairs [(2019, 100), (2020, 90)])
        = (lossPct 100 90).map some := rfl
    rw [h]
    norm_num [lossPct, pyRound2, roundHalfEven, Except.map]
  have hgf : gfcLossOf (dictOfPairs [(2019, 100), (2020, 90)]) = .ok none := rfl
  have havg : avgAbsLoss (some (-10)) none = some 10 := by
    norm_num [avgAbsLoss, abs_of_nonneg]
  have hscore : max (0:ℚ) (min 100 (100 - 10 * 5)) = 50 := by
    norm_num [max_def, min_def]
  have hmk : mkResilience (some (-10)) none
      = (⟨some (-10), none, some 50, some "Low"⟩ : Resilience) := by
    unfold mkResilience
    rw [havg]
    dsimp only
    rw [hscore]
    have h1 : pyRound1 50 = 50 := by norm_num [pyRound1, roundHalfEven, Int.fract]
    have h2 : resilienceRatingOf 50 = "Low" := by norm_num [resilienceRatingOf]
    rw [h1, h2]
  have hcalc : calculate_downturn_resilience [(2019, 100), (2020, 90)]
      = .ok (⟨some (-10), none, some 50, some "Low"⟩ : Resilience) := by
    unfold calculate_downturn_resilience
    rw [hcv]
    dsimp only
    rw [hgf]
    dsimp only
    rw [hmk]
  exact C5_amended [(2019, 100), (2020, 90)] ⟨some (-10), none, some 50, some "Low"⟩ hcalc

/-- C10: in the granular demographics calculator every provider field that
is missing, empty, or not composed solely of digits (including the
negative Census sentinel "-666666666") is coerced to 0 before any metric
is derived; consequently a sentinel median income is reported as 0, a zero
population denominator yields a participation or college rate of 0, and
the workforce-quality rating of such a row is Low. -/
theorem C10_coercion :
    (∀ s : String, s = "" ∨ (∃ c ∈ s.toList, c.isDigit = false) →
      coerceField (some s) = 0)
  ∧ coerceField none = 0
  ∧ acsParseRow 2023 [some "-666666666", some "-666666666", some "1500", some "",
      some "500", some "200", some "50", some "10"]
      = ⟨⟨0, 2023⟩, ⟨0, 2023⟩, ⟨0, "Low", 2023⟩⟩ := by
  refine ⟨?_, rfl, by decide⟩
  intro s h
  have hcond : ¬ (s.length ≠ 0 ∧ s.toList.all Char.isDigit = true) := by
    rcases h with rfl | ⟨c, hc, hcd⟩
    · intro hcon
      exact hcon.1 rfl
    · intro hcon
      have hall := List.all_eq_true.mp hcon.2 c hc
      rw [hcd] at hall
      exact absurd hall (by simp)
  unfold coerceField pyIntParse
  dsimp only
  rw [if_neg hcond]

/-- C10 (witness): the coercion conjunct applied to the Census sentinel
string. -/
theorem C10_coercion_witness : coerceField (some "-666666666") = 0 :=
  C10_coercion.1 "-666666666" (Or.inr ⟨'-', by decide, by decide⟩)

/-- C6: the trend projector is a no-op, returning the input together with
an empty notes list (hence idempotent), whenever the census input is
missing, errored or has no trend points, the county input is missing or
errored, or the county series latest year does not strictly exceed the
census series latest year. -/
theorem C6_noop :
    (∀ lau, project_census_data none lau = (none, []))
  ∧ (∀ (c : CDat) lau, isTruthyErr c.error = true →
      project_census_data (some c) lau = (some c, []))
  ∧ (∀ (c : CDat) lau, c.trends = [] →
      project_census_data (some c) lau = (some c, []))
  ∧ (∀ (c : CDat), project_census_data (some c) none = (some c, []))
  ∧ (∀ (c : CDat) (lv : LauView), isTruthyErr lv.error = true →
      project_census_data (some c) (some lv) = (some c, []))
  ∧ (∀ (c : CDat) (lv : LauView), countyLatestYear lv ≤ c.trends.headI.year →
      project_census_data (some c) (some lv) = (some c, []))
  ∧ (∀ (c : CDat) (lv : LauView), countyLatestYear lv ≤ c.trends.headI.year →
      project_census_data (project_census_data (some c) (some lv)).1 (some lv)
        = (some c, [])) := by
  have h6 : ∀ (c : CDat) (lv : LauView), countyLatestYear lv ≤ c.trends.headI.year →
      project_census_data (some c) (some lv) = (some c, []) := by
    intro c lv h
    unfold countyLatestYear at h
    unfold project_census_data
    dsimp only
    split_ifs with h1 h2 <;> rfl
  refine ⟨?_, ?_, ?_, ?_, ?_, h6, ?_⟩
  · intro lau; rfl
  · intro c lau h
    unfold project_census_data
    cases lau <;> simp [h]
  · intro c lau h
    unfold project_census_data
    cases lau <;> simp [h]
  · intro c
    unfold project_census_data
    dsimp only
    split_ifs <;> rfl
  · intro c lv h
    unfold project_census_data
    dsimp only
    split_ifs with h1 <;> rfl
  · intro c lv h
    rw [h6 c lv h]
    exact h6 c lv h

/-- C6 (witness): the no-op cases at concrete inputs: missing census dict,
errored census dict, census dict without trend points, missing county
dict, errored county dict, and a county series that does not extend past
the census series (the year check and the idempotence consequence). -/
theorem C6_noop_witness :
    project_census_data none (some c7Lau) = (none, [])
  ∧ project_census_data (some ⟨some "boom", [], [], none, none, none⟩) (some c7Lau)
      = (some ⟨some "boom", [], [], none, none, none⟩, [])
  ∧ project_census_data (some ⟨none, [], [], none, none, none⟩) (some c7Lau)
      = (some ⟨none, [], [], none, none, none⟩, [])
  ∧ project_census_data (some cenX) none = (some cenX, [])
  ∧ project_census_data (some cenX) (some ⟨some "bad", [], []⟩) = (some cenX, [])
  ∧ project_census_data (some cenX) (some c7Lau) = (some cenX, [])
  ∧ project_census_data (project_census_data (some cenX) (some c7Lau)).1 (some c7Lau)
      = (some cenX, []) := by
  refine ⟨C6_noop.1 (some c7Lau), ?_, ?_, C6_noop.2.2.2.1 cenX, ?_, ?_, ?_⟩
  · exact C6_noop.2.1 _ _ (by decide)
  · exact C6_noop.2.2.1 _ _ rfl
  · exact C6_noop.2.2.2.2.1 _ _ (by decide)
  · exact C6_noop.2.2.2.2.2.1 cenX c7Lau (by decide)
  · exact C6_noop.2.2.2.2.2.2 cenX c7Lau (by decide)

unseal Rat.mul Rat.inv Rat.add Rat.sub in
/-- C7: projection over a 2-year gap.  With one census point
(2021, employed 1000, labor force 1100) and county yearly ratios 0.05 for
2022 and -0.02 for 2023, the projector emits exactly two new points, both
flagged projected, compounding 1000 to 1050 and then to 1029, re-sorts the
trend list descending, refreshes the headline figures and growth windows,
and emits the projection note.  With the sparse county series (no 2022
observation) the projected year 2022 has no known ratio and carries 1000
forward, while 2023 applies the 0.05 ratio computed from the consecutive
available years. -/
theorem C7_projection :
    project_census_data (some c7Census) (some c7Lau) =
      (some { error := none,
              trends := [⟨2023, 1029, 1091/100, 1155, true⟩,
                         ⟨2022, 1050, 909/100, 1155, true⟩,
                         ⟨2021, 1000, 4, 1100, false⟩],
              growth := [("1y", some (-2)), ("2y", some (29/10))],
              total_jobs := some 1029, unemployment_rate := some (1091/100),
              labor_force := some 1155 }, [projectionNote])
  ∧ (((project_census_data (some c7Census) (some c7LauSparse)).1.getD
        ⟨none, [], [], none, none, none⟩).trends.filter
        (fun t => t.projected)).map (fun t => (t.year, t.value, t.projected))
      = [(2023, 1050, true), (2022, 1000, true)] := by
  constructor
  · decide
  · decide

unseal Rat.mul Rat.inv Rat.add Rat.sub in
/-- C4: the summary label code (main.py line 659) evaluates
`lau_data.get("growth", {}).get("1y", 0) > 2`.  When the LAU fetch
succeeded but its series was too short, the growth dict holds the value
`None` under "1y" (first conjunct, with the single-observation series of
the repository test fixture), and the comparison raises a TypeError that
the route converts into the generic 500 error (second and third
conjuncts) instead of producing the label "weak" that the claim and the
repository test (which expects status 200 on exactly such data) demand.
Only a missing growth dict (an LAU error dict) is treated as 0 and labelled
weak (fourth conjunct). -/
theorem C4_code_bug :
    get_growth [500000] 11 = none
  ∧ employmentGrowthStrength (.ok lauSingle) = .error "TypeError: NoneType comparison"
  ∧ composeReport geoX "tract" (.val (.ok lauSingle)) (.val (.ok qcewX)) (.val (.ok natX))
      (.val (.ok resX)) (.val cenX) (.val (.ok acsX)) = .error "TypeError: NoneType comparison"
  ∧ employmentGrowthStrength (.error "No LAU data found for this location.") = .ok "weak" := by
  refine ⟨by decide, rfl, by decide, rfl⟩

unseal Rat.mul Rat.inv Rat.add Rat.sub in
/-- C1 (counterexample): with every source healthy except the national
baseline, the composed report succeeds, but no inline error object
anywhere in it records the national failure (the collected inline error
strings are empty), and the comparative performance section is silently
empty — refuting the claim that the failing source is represented as an
inline error object. -/
theorem C1_counterexample :
    (composeReport geoX "tract" (.val (.ok lauX)) (.val (.ok qcewX))
        (.val (.error "national data unavailable")) (.val (.ok resX)) (.val cenX)
        (.val (.ok acsX))).map Report.errorStrings = .ok []
  ∧ (composeReport geoX "tract" (.val (.ok lauX)) (.val (.ok qcewX))
        (.val (.error "national data unavailable")) (.val (.ok resX)) (.val cenX)
        (.val (.ok acsX))).map (fun r => r.county_context)
      = .ok (some (.ok countySourceTag lauX (.ok qcewX) (.ok resX) [])) := by
  refine ⟨by decide, by decide⟩

theorem project_keeps_error (c : CDat) (lv : LauView) :
    ∃ c2 ns, project_census_data (some c) (some lv) = (some c2, ns) ∧ c2.error = c.error := by
  unfold project_census_data
  dsimp only
  split_ifs <;> exact ⟨_, _, rfl, rfl⟩

theorem project_noop_of_lauErr (c : CDat) (lv : LauView)
    (h : isTruthyErr lv.error = true) :
    project_census_data (some c) (some lv) = (some c, []) := by
  unfold project_census_data
  dsimp only
  split_ifs with h1 <;> rfl

theorem project_noop_of_cenErr (c : CDat) (lv : Option LauView)
    (h : isTruthyErr c.error = true) :
    project_census_data (some c) lv = (some c, []) := by
  unfold project_census_data
  cases lv <;> simp [h]

theorem isTruthyErr_of_ne (m : String) (h : m ≠ "") : isTruthyErr (some m) = true := by
  have h2 : m.isEmpty = false := by
    rw [Bool.eq_false_iff]
    intro hc
    exact h ((String.isEmpty_iff m).mp hc)
  simp [isTruthyErr, h2]


theorem compare_err (g : Growth4) (m : String) :
    compare_local_to_national g (.error m) = [] := rfl

/-- C1 (amended): fix a tract request whose six sources would compose
successfully (the hypothesis) with a healthy wage sub-object and an
error-free census dict, and let exactly one source fail with a non-empty
message `m`.  Then the request never ends fatally, but the claimed shape
only partly holds: a county-employment failure leaves the county context
as a bare inline error (dropping the sector/wage, resilience and
comparative payloads) while the granular side survives; a sector/wage,
resilience or demographics failure keeps everything else and surfaces `m`
inline; a granular-employment failure replaces the whole granular object
(demographics included) by the inline error; and a national-baseline
failure is silent: the comparative section is empty and no inline error
records it. -/
theorem C1_amended :
    ∀ (geo : GeoFips) (lau : LauPayload) (qcew : QcewPayload) (nat : NatGrowth)
      (res : Resilience) (cen : CDat) (acs : AcsPayload) (m : String),
    m ≠ "" → cen.error = none → exceptOk qcew.wage_data = true →
    exceptOk (composeReport geo "tract" (.val (.ok lau)) (.val (.ok qcew))
        (.val (.ok nat)) (.val (.ok res)) (.val cen) (.val (.ok acs))) = true →
    (∃ r, composeReport geo "tract" (.val (.error m)) (.val (.ok qcew)) (.val (.ok nat))
        (.val (.ok res)) (.val cen) (.val (.ok acs)) = .ok r
      ∧ r.county_context = some (.err m)
      ∧ r.granular_data = some (.fromCensus censusSourceTag cen (.ok acs))
      ∧ r.errorStrings = [m])
  ∧ (∃ r, composeReport geo "tract" (.val (.ok lau)) (.val (.error m)) (.val (.ok nat))
        (.val (.ok res)) (.val cen) (.val (.ok acs)) = .ok r
      ∧ r.county_context = some (.ok countySourceTag lau (.error m) (.ok res)
          (compare_local_to_national lau.growth (.ok nat)))
      ∧ (∃ c2, (project_census_data (some cen) (some (lauProjView (.ok lau)))).1 = some c2
          ∧ r.granular_data = some (.fromCensus censusSourceTag c2 (.ok acs)))
      ∧ r.errorStrings = [m])
  ∧ (∃ r, composeReport geo "tract" (.val (.ok lau)) (.val (.ok qcew)) (.val (.error m))
        (.val (.ok res)) (.val cen) (.val (.ok acs)) = .ok r
      ∧ r.county_context = some (.ok countySourceTag lau (.ok qcew) (.ok res) [])
      ∧ (∃ c2, (project_census_data (some cen) (some (lauProjView (.ok lau)))).1 = some c2
          ∧ r.granular_data = some (.fromCensus censusSourceTag c2 (.ok acs)))
      ∧ r.errorStrings = [])
  ∧ (∃ r, composeReport geo "tract" (.val (.ok lau)) (.val (.ok qcew)) (.val (.ok nat))
        (.val (.error m)) (.val cen) (.val (.ok acs)) = .ok r
      ∧ r.county_context = some (.ok countySourceTag lau (.ok qcew) (.error m)
          (compare_local_to_national lau.growth (.ok nat)))
      ∧ (∃ c2, (project_census_data (some cen) (some (lauProjView (.ok lau)))).1 = some c2
          ∧ r.granular_data = some (.fromCensus censusSourceTag c2 (.ok acs)))
      ∧ r.errorStrings = [m])
  ∧ (∃ r, composeReport geo "tract" (.val (.ok lau)) (.val (.ok qcew)) (.val (.ok nat))
        (.val (.ok res)) (.val ⟨some m, [], [], none, none, none⟩) (.val (.ok acs)) = .ok r
      ∧ r.county_context = some (.ok countySourceTag lau (.ok qcew) (.ok res)
          (compare_local_to_national lau.growth (.ok nat)))
      ∧ r.granular_data = some (.err m)
      ∧ r.errorStrings = [m])
  ∧ (∃ r, composeReport geo "tract" (.val (.ok lau)) (.val (.ok qcew)) (.val (.ok nat))
        (.val (.ok res)) (.val cen) (.val (.error m)) = .ok r
      ∧ r.county_context = some (.ok countySourceTag lau (.ok qcew) (.ok res)
          (compare_local_to_national lau.growth (.ok nat)))
      ∧ (∃ c2, (project_census_data (some cen) (some (lauProjView (.ok lau)))).1 = some c2
          ∧ r.granular_data = some (.fromCensus censusSourceTag c2 (.error m)))
      ∧ r.errorStrings = [m]) := by
  intro geo lau qcew nat res cen acs m hm hc hqw h
  cases hw : qcew.wage_data with
  | error e =>
    rw [hw] at hqw
    simp [exceptOk] at hqw
  | ok w =>
    cases hg1 : lau.growth.g1y with
    | none =>
      exfalso
      simp [composeReport, TaskOut.getOr, employmentGrowthStrength, gvStrengthE, hg1,
        exceptOk] at h
    | some g1 =>
      cases hwg : w.wage_growth.g1y with
      | none =>
        exfalso
        simp [composeReport, TaskOut.getOr, employmentGrowthStrength, wageGrowthStrength,
          gvStrengthE, hg1, hw, hwg, exceptOk] at h
      | some wg =>
        have hm2 := isTruthyErr_of_ne m hm
        obtain ⟨c2, ns, hproj, herr2⟩ := project_keeps_error cen (lauProjView (.ok lau))
        rw [hc] at herr2
        refine ⟨?_, ?_, ?_, ?_, ?_, ?_⟩
        · have hnoop := project_noop_of_lauErr cen ⟨some m, [], []⟩ hm2
          simp [composeReport, TaskOut.getOr, isGranularGeo, lauProjView, hnoop, hc, hw, hwg,
            employmentGrowthStrength, wageGrowthStrength, gvStrengthE, Report.errorStrings,
            CountyContext.errorStrings, GranularData.errorStrings]
        · simp [composeReport, TaskOut.getOr, isGranularGeo, hproj, herr2, hg1, hc,
            employmentGrowthStrength, wageGrowthStrength, gvStrengthE, Report.errorStrings,
            CountyContext.errorStrings, GranularData.errorStrings]
        · simp [composeReport, TaskOut.getOr, isGranularGeo, hproj, herr2, hg1, hc, hw, hwg,
            compare_err, employmentGrowthStrength, wageGrowthStrength, gvStrengthE,
            Report.errorStrings, CountyContext.errorStrings, GranularData.errorStrings]
        · simp [composeReport, TaskOut.getOr, isGranularGeo, hproj, herr2, hg1, hc, hw, hwg,
            employmentGrowthStrength, wageGrowthStrength, gvStrengthE, Report.errorStrings,
            CountyContext.errorStrings, GranularData.errorStrings]
        · have hnoop5 := project_noop_of_cenErr ⟨some m, [], [], none, none, none⟩
            (some (lauProjView (.ok lau))) hm2
          simp [composeReport, TaskOut.getOr, isGranularGeo, hnoop5, hg1, hw, hwg, hm2,
            employmentGrowthStrength, wageGrowthStrength, gvStrengthE, Report.errorStrings,
            CountyContext.errorStrings, GranularData.errorStrings]
        · simp [composeReport, TaskOut.getOr, isGranularGeo, hproj, herr2, hg1, hc, hw, hwg,
            employmentGrowthStrength, wageGrowthStrength, gvStrengthE, Report.errorStrings,
            CountyContext.errorStrings, GranularData.errorStrings]

unseal Rat.mul Rat.inv Rat.add Rat.sub in
/-- C1 (witness): the amended statement at the concrete healthy payloads
with failure message "boom". -/
theorem C1_amended_witness :
    (∃ r, composeReport geoX "tract" (.val (.error "boom")) (.val (.ok qcewX)) (.val (.ok natX))
        (.val (.ok resX)) (.val cenX) (.val (.ok acsX)) = .ok r
      ∧ r.county_context = some (.err "boom")
      ∧ r.granular_data = some (.fromCensus censusSourceTag cenX (.ok acsX))
      ∧ r.errorStrings = ["boom"])
  ∧ (∃ r, composeReport geoX "tract" (.val (.ok lauX)) (.val (.error "boom")) (.val (.ok natX))
        (.val (.ok resX)) (.val cenX) (.val (.ok acsX)) = .ok r
      ∧ r.county_context = some (.ok countySourceTag lauX (.error "boom") (.ok resX)
          (compare_local_to_national lauX.growth (.ok natX)))
      ∧ (∃ c2, (project_census_data (some cenX) (some (lauProjView (.ok lauX)))).1 = some c2
          ∧ r.granular_data = some (.fromCensus censusSourceTag c2 (.ok acsX)))
      ∧ r.errorStrings = ["boom"])
  ∧ (∃ r, composeReport geoX "tract" (.val (.ok lauX)) (.val (.ok qcewX)) (.val (.error "boom"))
        (.val (.ok resX)) (.val cenX) (.val (.ok acsX)) = .ok r
      ∧ r.county_context = some (.ok countySourceTag lauX (.ok qcewX) (.ok resX) [])
      ∧ (∃ c2, (project_census_data (some cenX) (some (lauProjView (.ok lauX)))).1 = some c2
          ∧ r.granular_data = some (.fromCensus censusSourceTag c2 (.ok acsX)))
      ∧ r.errorStrings = [])
  ∧ (∃ r, composeReport geoX "tract" (.val (.ok lauX)) (.val (.ok qcewX)) (.val (.ok natX))
        (.val (.error "boom")) (.val cenX) (.val (.ok acsX)) = .ok r
      ∧ r.county_context = some (.ok countySourceTag lauX (.ok qcewX) (.error "boom")
          (compare_local_to_national lauX.growth (.ok natX)))
      ∧ (∃ c2, (project_census_data (some cenX) (some (lauProjView (.ok lauX)))).1 = some c2
          ∧ r.granular_data = some (.fromCensus censusSourceTag c2 (.ok acsX)))
      ∧ r.errorStrings = ["boom"])
  ∧ (∃ r, composeReport geoX "tract" (.val (.ok lauX)) (.val (.ok qcewX)) (.val (.ok natX))
        (.val (.ok resX)) (.val ⟨some "boom", [], [], none, none, none⟩) (.val (.ok acsX)) = .ok r
      ∧ r.county_context = some (.ok countySourceTag lauX (.ok qcewX) (.ok resX)
          (compare_local_to_national lauX.growth (.ok natX)))
      ∧ r.granular_data = some (.err "boom")
      ∧ r.errorStrings = ["boom"])
  ∧ (∃ r, composeReport geoX "tract" (.val (.ok lauX)) (.val (.ok qcewX)) (.val (.ok natX))
        (.val (.ok resX)) (.val cenX) (.val (.error "boom")) = .ok r
      ∧ r.county_context = some (.ok countySourceTag lauX (.ok qcewX) (.ok resX)
          (compare_local_to_national lauX.growth (.ok natX)))
      ∧ (∃ c2, (project_census_data (some cenX) (some (lauProjView (.ok lauX)))).1 = some c2
          ∧ r.granular_data = some (.fromCensus censusSourceTag c2 (.error "boom")))
      ∧ r.errorStrings = ["boom"]) :=
  C1_amended geoX lauX qcewX natX resX cenX acsX "boom" (by decide) rfl rfl (by decide)

/-- C9: with `flush_cache = false`, a request that ends in a fatal error
(an HTTPException from address resolution, or the generic 500 produced by
a composition failure) leaves the fast-tier cache untouched: the `setex`
write happens only after the report object has been successfully
composed. -/
theorem C9_no_write_on_error : ∀ (address geo_type : String)
    (cache : List (String × CacheEntry)) (geoR : Except FatalErr GeoPart)
    (fipsR : Except FatalErr FipsPart) (lauT : TaskOut (Except String LauPayload))
    (qcewT : TaskOut (Except String QcewPayload)) (natT : TaskOut (Except String NatGrowth))
    (resT : TaskOut (Except String Resilience)) (cenT : TaskOut CDat)
    (acsT : TaskOut (Except String AcsPayload)) (e : FatalErr),
    (get_job_growth address geo_type false cache geoR fipsR lauT qcewT natT resT cenT acsT).2
      = .error e →
    (get_job_growth address geo_type false cache geoR fipsR lauT qcewT natT resT cenT acsT).1
      = cache := by
  intro address geo_type cache geoR fipsR lauT qcewT natT resT cenT acsT e h2
  have hcase :
      (get_job_growth address geo_type false cache geoR fipsR lauT qcewT natT resT cenT acsT).1
        = cache
      ∨ ∃ r, (get_job_growth address geo_type false cache geoR fipsR lauT qcewT natT resT
          cenT acsT).2 = .ok r := by
    unfold get_job_growth
    simp only [Bool.false_eq_true, if_false]
    split
    · exact Or.inr ⟨_, rfl⟩
    · cases geoR with
      | error e2 => exact Or.inl rfl
      | ok gp =>
        cases fipsR with
        | error e2 => exact Or.inl rfl
        | ok fp =>
          cases hcomp : composeReport (mergeGeo gp fp) geo_type lauT qcewT natT resT cenT acsT with
          | error msg => simp [hcomp]
          | ok r => simp [hcomp]
    · cases geoR with
      | error e2 => exact Or.inl rfl
      | ok gp =>
        cases fipsR with
        | error e2 => exact Or.inl rfl
        | ok fp =>
          cases hcomp : composeReport (mergeGeo gp fp) geo_type lauT qcewT natT resT cenT acsT with
          | error msg => simp [hcomp]
          | ok r => simp [hcomp]
  rcases hcase with h1 | ⟨r, hr⟩
  · exact h1
  · rw [h2] at hr
    exact absurd hr (by simp)

/-- C9 (witness): a geocoding failure on an empty cache leaves the cache
empty. -/
theorem C9_no_write_on_error_witness :
    (get_job_growth "123 Main St" "tract" false [] (.error ⟨400, "Geocoding failed"⟩)
      (.ok ⟨"06", "06075", "06075017901"⟩) .exn .exn .exn .exn .exn .exn).1 = [] :=
  C9_no_write_on_error "123 Main St" "tract" [] (.error ⟨400, "Geocoding failed"⟩)
    (.ok ⟨"06", "06075", "06075017901"⟩) .exn .exn .exn .exn .exn .exn
    ⟨400, "Geocoding failed"⟩ rfl

/-- C2: the two-tier read path (modelled from the spec, section 4.7, since
the database-backed route is not among the provided sources): a fast-tier
hit returns immediately without touching the state; on a fast-tier miss
the persistent tier is consulted and a hit backfills the fast tier with
the TTL and returns the stored payload (not a recomputation); on a full
miss the computed payload is written to the persistent store (upsert by
key) and to the fast tier with the TTL, and returned. -/
theorem C2_two_tier :
    (∀ (st : TieredCacheState) (key computed : String) (v : String × ℕ),
      st.fast.lookup key = some v →
      tieredRead st key computed = (st, v.1, .fastHit))
  ∧ (∀ (st : TieredCacheState) (key computed v : String),
      st.fast.lookup key = none → st.persistent.lookup key = some v →
      tieredRead st key computed =
        ({ st with fast := upsertKV st.fast key (v, FAST_TTL) }, v, .persistentHit))
  ∧ (∀ (st : TieredCacheState) (key computed : String),
      st.fast.lookup key = none → st.persistent.lookup key = none →
      tieredRead st key computed =
        ({ fast := upsertKV st.fast key (computed, FAST_TTL),
           persistent := upsertKV st.persistent key computed }, computed, .fresh)) := by
  refine ⟨?_, ?_, ?_⟩
  · intro st key computed v h1
    simp [tieredRead, h1]
  · intro st key computed v h1 h2
    simp [tieredRead, h1, h2]
  · intro st key computed h1 h2
    simp [tieredRead, h1, h2]

/-- C2 (witness): the three read paths at concrete one-entry states. -/
theorem C2_two_tier_witness :
    tieredRead ⟨[("k", ("v", 3600))], []⟩ "k" "c"
      = (⟨[("k", ("v", 3600))], []⟩, "v", .fastHit)
  ∧ tieredRead ⟨[], [("k", "v")]⟩ "k" "c"
      = ({ (⟨[], [("k", "v")]⟩ : TieredCacheState) with
           fast := upsertKV ([] : List (String × (String × ℕ))) "k" ("v", FAST_TTL) },
         "v", .persistentHit)
  ∧ tieredRead ⟨[], []⟩ "k" "c"
      = ({ fast := upsertKV ([] : List (String × (String × ℕ))) "k" ("c", FAST_TTL),
           persistent := upsertKV ([] : List (String × String)) "k" "c" }, "c", .fresh) :=
  ⟨C2_two_tier.1 ⟨[("k", ("v", 3600))], []⟩ "k" "c" ("v", 3600) rfl,
   C2_two_tier.2.1 ⟨[], [("k", "v")]⟩ "k" "c" "v" rfl rfl,
   C2_two_tier.2.2 ⟨[], []⟩ "k" "c" rfl rfl⟩
